import Mathlib

/-!
Shallow embedding of `sft-trainer-alpaca.py`, a LoRA fine-tuning script.

The script's own logic is prompt templating, tokenization post-processing
(eos handling, label masking), hyperparameter plumbing and the linear order
of its pipeline stages.  External library behaviour (the HuggingFace
tokenizer, the filesystem, dataset shuffling) is modelled by parameters:
the raw tokenizer is an arbitrary function `encode : String → List Int`
(the HF call with `truncation=True, max_length=cutoff_len, padding=False`
returns the first `cutoff_len` ids with an all-ones attention mask),
the filesystem is a predicate `fs : String → Bool` (`os.path.exists`),
and a shuffle is an arbitrary permutation of the dataset list.
-/

namespace SftAlpaca

/-- The external tokenizer: `encode` is the raw id sequence the HF tokenizer
produces for a string (before truncation), `eos_token_id` its eos id. -/
structure TokenizerCfg where
  encode : String → List Int
  eos_token_id : Int

/-- The dict returned by the script's `tokenize` helper:
`input_ids`, `attention_mask` and `labels` lists. -/
structure TokenizedResult where
  input_ids : List Int
  attention_mask : List Int
  labels : List Int
deriving Repr, DecidableEq

/-- The `input_ids` list the HF tokenizer call inside `tokenize` returns:
with `truncation=True, max_length=cutoff_len`, the first `cutoff_len` ids
of the raw encoding. -/
def hfInputIds (tk : TokenizerCfg) (cutoff_len : Nat) (prompt : String) :
    List Int :=
  (tk.encode prompt).take cutoff_len

/-- Embedding of the nested `tokenize(prompt, add_eos_token=True)`:
the HF call yields `take cutoff_len` of the raw encoding with an all-ones
attention mask; if the last id is not eos, the length is strictly below
`cutoff_len` and `add_eos_token` holds, one eos id (mask value 1) is
appended; `labels` is a copy of `input_ids`.  Python indexes
`result["input_ids"][-1]`, which raises `IndexError` on an empty list:
that failure is `none`. -/
def tokenize (tk : TokenizerCfg) (cutoff_len : Nat) (prompt : String)
    (add_eos_token : Bool) : Option TokenizedResult :=
  let ids := hfInputIds tk cutoff_len prompt
  if ids = [] then none
  else if ids.getLast? ≠ some tk.eos_token_id ∧ ids.length < cutoff_len ∧
      add_eos_token = true then
    some { input_ids := ids ++ [tk.eos_token_id],
           attention_mask := List.replicate ids.length 1 ++ [1],
           labels := ids ++ [tk.eos_token_id] }
  else
    some { input_ids := ids,
           attention_mask := List.replicate ids.length 1,
           labels := ids }

/-- One record of the instruction dataset. -/
structure DataPoint where
  instruction : String
  input : String
  output : String
deriving Repr, DecidableEq

/-- The fixed Alpaca template header. -/
def alpacaHeader : String :=
  "Below is an instruction that describes a task, paired with an input that provides further context. Write a response that appropriately completes the request."

/-- `full_prompt` of `generate_and_tokenize_prompt`: the template with the
instruction, input and output fields substituted. -/
def fullPromptOf (dp : DataPoint) : String :=
  alpacaHeader ++ "\n\n### Instruction:\n" ++ dp.instruction ++
    "\n\n### Input:\n" ++ dp.input ++ "\n\n### Response:\n" ++ dp.output

/-- `user_prompt` of `generate_and_tokenize_prompt`: the same template
without the response text. -/
def userPromptOf (dp : DataPoint) : String :=
  alpacaHeader ++ "\n\n### Instruction:\n" ++ dp.instruction ++
    "\n\n### Input:\n" ++ dp.input ++ "\n\n### Response:\n"

/-- Embedding of `generate_and_tokenize_prompt(data_point)`:
tokenize the full prompt (with the default `add_eos_token=True`); when
`train_on_inputs` is false, tokenize the user prompt with the script's
`add_eos_token` flag, take its length (minus one when the flag is set) and
overwrite that many leading labels with the sentinel `-100`, keeping the
tail slice `labels[user_prompt_len:]`. -/
def generate_and_tokenize_prompt (tk : TokenizerCfg) (cutoff_len : Nat)
    (train_on_inputs : Bool) (add_eos_token : Bool) (dp : DataPoint) :
    Option TokenizedResult :=
  match tokenize tk cutoff_len (fullPromptOf dp) true with
  | none => none
  | some tokenized_full_prompt =>
    if train_on_inputs then some tokenized_full_prompt
    else
      match tokenize tk cutoff_len (userPromptOf dp) add_eos_token with
      | none => none
      | some tokenized_user_prompt =>
        let user_prompt_len :=
          if add_eos_token then tokenized_user_prompt.input_ids.length - 1
          else tokenized_user_prompt.input_ids.length
        some { tokenized_full_prompt with
               labels := List.replicate user_prompt_len (-100) ++
                 tokenized_full_prompt.labels.drop user_prompt_len }

/-- `user_prompt_len` as `generate_and_tokenize_prompt` computes it:
the tokenized length of the prompt without the response text, decremented
by one when `add_eos_token` is true. -/
def userPromptLen (tk : TokenizerCfg) (cutoff_len : Nat)
    (add_eos_token : Bool) (dp : DataPoint) : Option Nat :=
  (tokenize tk cutoff_len (userPromptOf dp) add_eos_token).map
    (fun r => if add_eos_token then r.input_ids.length - 1 else r.input_ids.length)

/-- A concrete tokenizer used to instantiate hypotheses of the theorems
below on closed inputs: every string encodes to the single id `5`. -/
def witTok : TokenizerCfg :=
  { encode := fun _ => [(5 : Int)], eos_token_id := 2 }

/-- A concrete dataset record used to instantiate the theorems below. -/
def witDp : DataPoint := { instruction := "i", input := "x", output := "o" }

/-- The `train_data` construction of the `val_set_size = 0` branch:
`data["train"].shuffle().map(generate_and_tokenize_prompt)`.  The shuffle
is external randomness, modelled as an arbitrary permutation of the
loaded example list. -/
def buildTrainData (tk : TokenizerCfg) (cutoff_len : Nat)
    (train_on_inputs : Bool) (add_eos_token : Bool)
    (shuffled : List DataPoint) : List (Option TokenizedResult) :=
  shuffled.map (generate_and_tokenize_prompt tk cutoff_len train_on_inputs add_eos_token)

/-- The parameters of `train` plus the two environment variables it reads
(`LOCAL_RANK`, `WORLD_SIZE`).  Python ints are `Int`; the two floats the
script only plumbs through (`learning_rate`, `lora_dropout`) are `Rat`. -/
structure TrainConfig where
  base_model : String
  data_path : String
  output_dir : String
  batch_size : Int
  micro_batch_size : Int
  num_epochs : Int
  learning_rate : Rat
  cutoff_len : Int
  val_set_size : Int
  lr_scheduler : String
  warmup_steps : Int
  lora_r : Int
  lora_alpha : Int
  lora_dropout : Rat
  lora_target_modules : List String
  train_on_inputs : Bool
  add_eos_token : Bool
  group_by_length : Bool
  resume_from_checkpoint : Option String
  local_rank : Int
  world_size : Int

/-- `gradient_accumulation_steps = batch_size // micro_batch_size`, then
`//= world_size` when `world_size != 1` (the script's `ddp` flag).  Python
`//` is floor division (`Int.fdiv`) and raises `ZeroDivisionError` on a
zero divisor, modelled as `none`. -/
def computeGradAccum (batch_size micro_batch_size world_size : Int) :
    Option Int :=
  if micro_batch_size = 0 then none
  else
    let g := Int.fdiv batch_size micro_batch_size
    if world_size ≠ 1 then
      if world_size = 0 then none else some (Int.fdiv g world_size)
    else some g

/-- The `LoraConfig` the script builds. -/
structure LoraConfigModel where
  r : Int
  lora_alpha : Int
  target_modules : List String
  lora_dropout : Rat
  bias : String
  task_type : String
deriving Repr, DecidableEq

/-- The model object as far as the script manipulates it: how it was
loaded, whether `prepare_model_for_int8_training` ran, and the attached
adapter. -/
structure ModelState where
  base_model : String
  load_in_8bit : Bool
  torch_dtype : String
  int8Prepared : Bool
  adapter : Option LoraConfigModel
deriving Repr, DecidableEq

/-- `AutoModelForCausalLM.from_pretrained(base_model, load_in_8bit=True,
torch_dtype=torch.float16, device_map=...)`. -/
def fromPretrainedModel (c : TrainConfig) : ModelState :=
  { base_model := c.base_model, load_in_8bit := true,
    torch_dtype := "float16", int8Prepared := false, adapter := none }

/-- `peft.prepare_model_for_int8_training`. -/
def prepare_model_for_int8_training (m : ModelState) : ModelState :=
  { m with int8Prepared := true }

/-- `peft.get_peft_model(model, config)`. -/
def get_peft_model (m : ModelState) (cfg : LoraConfigModel) : ModelState :=
  { m with adapter := some cfg }

/-- The `LoraConfig(r=lora_r, lora_alpha=lora_alpha,
target_modules=lora_target_modules, lora_dropout=lora_dropout,
bias="none", task_type="CAUSAL_LM")` the script constructs. -/
def loraConfigOf (c : TrainConfig) : LoraConfigModel :=
  { r := c.lora_r, lora_alpha := c.lora_alpha,
    target_modules := c.lora_target_modules,
    lora_dropout := c.lora_dropout, bias := "none",
    task_type := "CAUSAL_LM" }

/-- The script's model preparation sequence: load 8-bit, run int8
preparation, then attach the LoRA adapter. -/
def modelPipeline (c : TrainConfig) : ModelState :=
  get_peft_model (prepare_model_for_int8_training (fromPretrainedModel c))
    (loraConfigOf c)

/-- The `transformers.TrainingArguments` the script constructs. -/
structure TrainingArgumentsModel where
  per_device_train_batch_size : Int
  gradient_accumulation_steps : Int
  warmup_steps : Int
  num_train_epochs : Int
  learning_rate : Rat
  fp16 : Bool
  logging_steps : Int
  optim : String
  evaluation_strategy : String
  save_strategy : String
  eval_steps : Option Int
  save_steps : Int
  lr_scheduler_type : String
  output_dir : String
  save_total_limit : Int
  load_best_model_at_end : Bool
  ddp_find_unused_parameters : Bool
  group_by_length : Bool
  remove_unused_columns : Bool
deriving Repr, DecidableEq

/-- The `TrainingArguments(...)` call inside `transformers.Trainer(...)`,
field for field; `gas` is the previously computed
`gradient_accumulation_steps`. -/
def mkTrainingArguments (c : TrainConfig) (gas : Int) :
    TrainingArgumentsModel :=
  { per_device_train_batch_size := c.micro_batch_size,
    gradient_accumulation_steps := gas,
    warmup_steps := c.warmup_steps,
    num_train_epochs := c.num_epochs,
    learning_rate := c.learning_rate,
    fp16 := true,
    logging_steps := 1,
    optim := "adamw_torch",
    evaluation_strategy := if 0 < c.val_set_size then "steps" else "no",
    save_strategy := "steps",
    eval_steps := if 0 < c.val_set_size then some 200 else none,
    save_steps := 1000,
    lr_scheduler_type := c.lr_scheduler,
    output_dir := c.output_dir,
    save_total_limit := 2,
    load_best_model_at_end := if 0 < c.val_set_size then true else false,
    ddp_find_unused_parameters := false,
    group_by_length := c.group_by_length,
    remove_unused_columns := true }

/-- The Python value held by the `resume_from_checkpoint` variable:
`None`, a string, or the `False` the fallback branch assigns. -/
inductive ResumeArg where
  | pynone
  | str (s : String)
  | boolean (b : Bool)
deriving Repr, DecidableEq

/-- Python truthiness of the `resume_from_checkpoint` value (`None` and
the empty string are falsy). -/
def ResumeArg.truthy : ResumeArg → Bool
  | .pynone => false
  | .str s => s != ""
  | .boolean b => b

/-- `train`'s argument is `None` or a string. -/
def resumeArgOfOpt : Option String → ResumeArg
  | none => ResumeArg.pynone
  | some s => ResumeArg.str s

/-- Outcome of the `if resume_from_checkpoint:` block: the value the
variable holds afterwards (passed to `trainer.train`), the checkpoint
path whose existence was finally tested, whether adapter weights were
loaded into the model, and whether the "not found" message was printed. -/
structure ResumeStepResult where
  resume_out : ResumeArg
  checkpoint_name : Option String
  weights_loaded : Bool
  printed_not_found : Bool
deriving Repr, DecidableEq

/-- Embedding of the `if resume_from_checkpoint:` block.  `fs` is
`os.path.exists`.  `os.path.join(dir, name)` is modelled as
`dir ++ "/" ++ name`. -/
def resumeFromCheckpointStep (r : ResumeArg) (fs : String → Bool) :
    ResumeStepResult :=
  if r.truthy then
    match r with
    | .str s =>
      let full := s ++ "/pytorch_model.bin"
      if fs full then
        { resume_out := ResumeArg.str s, checkpoint_name := some full,
          weights_loaded := true, printed_not_found := false }
      else
        let adapter := s ++ "/adapter_model.bin"
        if fs adapter then
          { resume_out := ResumeArg.boolean false,
            checkpoint_name := some adapter,
            weights_loaded := true, printed_not_found := false }
        else
          { resume_out := ResumeArg.boolean false,
            checkpoint_name := some adapter,
            weights_loaded := false, printed_not_found := true }
    | _ =>
      { resume_out := r, checkpoint_name := none,
        weights_loaded := false, printed_not_found := false }
  else
    { resume_out := r, checkpoint_name := none,
      weights_loaded := false, printed_not_found := false }

/-- The observable stages of one `train` run, in execution order. -/
inductive TrainEvent where
  | printArgs
  | loadBaseModel
  | loadTokenizer
  | prepareInt8
  | attachLora
  | loadDataset
  | loadCheckpointWeights
  | printCheckpointMissing
  | mapTokenizeDataset
  | trainerTrain
  | saveAdapter
  | saveTokenizer
deriving Repr, DecidableEq

/-- Events the `if resume_from_checkpoint:` block emits. -/
def resumeEvents (r : ResumeArg) (fs : String → Bool) : List TrainEvent :=
  if r.truthy then
    match r with
    | .str s =>
      if fs (s ++ "/pytorch_model.bin") then [TrainEvent.loadCheckpointWeights]
      else if fs (s ++ "/adapter_model.bin") then
        [TrainEvent.loadCheckpointWeights]
      else [TrainEvent.printCheckpointMissing]
    | _ => []
  else []

/-- The stage trace of a `train` run: `none` when the run raises before
training (failed `assert base_model` or `ZeroDivisionError` in the
gradient-accumulation computation), otherwise the stages executed in
the order the script's straight-line body runs them. -/
def trainTrace (c : TrainConfig) (fs : String → Bool) :
    Option (List TrainEvent) :=
  if c.base_model = "" then none
  else
    match computeGradAccum c.batch_size c.micro_batch_size c.world_size with
    | none => none
    | some _ =>
      some ((if c.local_rank = 0 then [TrainEvent.printArgs] else []) ++
        [TrainEvent.loadBaseModel, TrainEvent.loadTokenizer,
         TrainEvent.prepareInt8, TrainEvent.attachLora,
         TrainEvent.loadDataset] ++
        resumeEvents (resumeArgOfOpt c.resume_from_checkpoint) fs ++
        [TrainEvent.mapTokenizeDataset, TrainEvent.trainerTrain,
         TrainEvent.saveAdapter, TrainEvent.saveTokenizer])

/-- A concrete configuration (the script's defaults with a base model
set) used to instantiate hypotheses of the theorems below. -/
def witCfg : TrainConfig :=
  { base_model := "llama", data_path := "d.json", output_dir := "out",
    batch_size := 128, micro_batch_size := 8, num_epochs := 1,
    learning_rate := 3 / 10000, cutoff_len := 4096, val_set_size := 0,
    lr_scheduler := "cosine", warmup_steps := 100, lora_r := 16,
    lora_alpha := 16, lora_dropout := 1 / 20,
    lora_target_modules := ["gate_proj", "down_proj", "up_proj"],
    train_on_inputs := false, add_eos_token := false,
    group_by_length := false, resume_from_checkpoint := none,
    local_rank := 0, world_size := 1 }

/-- A concrete filesystem on which no path exists. -/
def witFs : String → Bool := fun _ => false

/-- Structural description of a successful `tokenize` call: when the
truncated encoding is nonempty the call succeeds, `labels` is the copy of
`input_ids`, the mask matches, and `input_ids` is the truncated encoding
with an eos appended exactly under the script's three-way condition. -/
theorem tokenize_spec (tk : TokenizerCfg) (cutoff_len : Nat) (p : String)
    (aet : Bool) (h : hfInputIds tk cutoff_len p ≠ []) :
    ∃ res, tokenize tk cutoff_len p aet = some res ∧
      res.labels = res.input_ids ∧
      res.attention_mask.length = res.input_ids.length ∧
      (if (hfInputIds tk cutoff_len p).getLast? ≠ some tk.eos_token_id ∧
          (hfInputIds tk cutoff_len p).length < cutoff_len ∧ aet = true
       then res.input_ids = hfInputIds tk cutoff_len p ++ [tk.eos_token_id] ∧
            res.attention_mask =
              List.replicate (hfInputIds tk cutoff_len p).length 1 ++ [1]
       else res.input_ids = hfInputIds tk cutoff_len p ∧
            res.attention_mask =
              List.replicate (hfInputIds tk cutoff_len p).length 1) := by
  unfold tokenize
  rw [if_neg h]
  by_cases hc : (hfInputIds tk cutoff_len p).getLast? ≠ some tk.eos_token_id ∧
      (hfInputIds tk cutoff_len p).length < cutoff_len ∧ aet = true
  · refine ⟨_, by rw [if_pos hc], rfl, ?_, ?_⟩
    · simp
    · rw [if_pos hc]
      exact ⟨rfl, rfl⟩
  · refine ⟨_, by rw [if_neg hc], rfl, ?_, ?_⟩
    · simp
    · rw [if_neg hc]
      exact ⟨rfl, rfl⟩

/-- Claim C5: for every prompt whose truncated encoding is nonempty and
either value of `add_eos_token`, `tokenize` returns `input_ids` of length
at most `cutoff_len` with an `attention_mask` of the same length, and it
appends exactly one eos id with attention value 1 if and only if
`add_eos_token` is true, the truncated sequence is strictly shorter than
`cutoff_len`, and its last token is not already the eos id; otherwise
`input_ids` is exactly the truncated encoding. -/
theorem tokenize_truncation_eos_spec (tk : TokenizerCfg) (cutoff_len : Nat)
    (p : String) (aet : Bool) (h : hfInputIds tk cutoff_len p ≠ []) :
    ∃ res, tokenize tk cutoff_len p aet = some res ∧
      res.input_ids.length ≤ cutoff_len ∧
      res.attention_mask.length = res.input_ids.length ∧
      ((res.input_ids = hfInputIds tk cutoff_len p ++ [tk.eos_token_id] ∧
        res.attention_mask =
          List.replicate (hfInputIds tk cutoff_len p).length 1 ++ [1]) ↔
       (aet = true ∧ (hfInputIds tk cutoff_len p).length < cutoff_len ∧
        (hfInputIds tk cutoff_len p).getLast? ≠ some tk.eos_token_id)) ∧
      (¬ (aet = true ∧ (hfInputIds tk cutoff_len p).length < cutoff_len ∧
          (hfInputIds tk cutoff_len p).getLast? ≠ some tk.eos_token_id) →
        res.input_ids = hfInputIds tk cutoff_len p ∧
        res.attention_mask =
          List.replicate (hfInputIds tk cutoff_len p).length 1) := by
  obtain ⟨res, hres, hlab, hmask, hif⟩ := tokenize_spec tk cutoff_len p aet h
  have hlen : (hfInputIds tk cutoff_len p).length ≤ cutoff_len :=
    List.length_take_le _ _
  refine ⟨res, hres, ?_, hmask, ?_, ?_⟩
  · by_cases hc : (hfInputIds tk cutoff_len p).getLast? ≠ some tk.eos_token_id ∧
        (hfInputIds tk cutoff_len p).length < cutoff_len ∧ aet = true
    · rw [if_pos hc] at hif
      rw [hif.1]
      simp only [List.length_append, List.length_singleton]
      omega
    · rw [if_neg hc] at hif
      rw [hif.1]
      exact hlen
  · constructor
    · intro hids
      by_cases hc : (hfInputIds tk cutoff_len p).getLast? ≠ some tk.eos_token_id ∧
          (hfInputIds tk cutoff_len p).length < cutoff_len ∧ aet = true
      · exact ⟨hc.2.2, hc.2.1, hc.1⟩
      · rw [if_neg hc] at hif
        exfalso
        have := hif.1 ▸ hids.1
        have hlen2 := congrArg List.length this
        simp at hlen2
    · intro hc
      have hc2 : (hfInputIds tk cutoff_len p).getLast? ≠ some tk.eos_token_id ∧
          (hfInputIds tk cutoff_len p).length < cutoff_len ∧ aet = true :=
        ⟨hc.2.2, hc.2.1, hc.1⟩
      rw [if_pos hc2] at hif
      exact hif
  · intro hc
    have hc2 : ¬ ((hfInputIds tk cutoff_len p).getLast? ≠ some tk.eos_token_id ∧
        (hfInputIds tk cutoff_len p).length < cutoff_len ∧ aet = true) := by
      intro hy
      exact hc ⟨hy.2.2, hy.2.1, hy.1⟩
    rw [if_neg hc2] at hif
    exact hif

/-- Closed instance of Claim C5 at the concrete tokenizer `witTok`,
`cutoff_len = 8`, prompt `"ab"`, `add_eos_token = true`. -/
theorem tokenize_truncation_eos_spec_witness :
    hfInputIds witTok 8 "ab" ≠ [] ∧
    ∃ res, tokenize witTok 8 "ab" true = some res ∧
      res.input_ids.length ≤ 8 ∧
      res.attention_mask.length = res.input_ids.length ∧
      ((res.input_ids = hfInputIds witTok 8 "ab" ++ [witTok.eos_token_id] ∧
        res.attention_mask =
          List.replicate (hfInputIds witTok 8 "ab").length 1 ++ [1]) ↔
       (true = true ∧ (hfInputIds witTok 8 "ab").length < 8 ∧
        (hfInputIds witTok 8 "ab").getLast? ≠ some witTok.eos_token_id)) ∧
      (¬ (true = true ∧ (hfInputIds witTok 8 "ab").length < 8 ∧
          (hfInputIds witTok 8 "ab").getLast? ≠ some witTok.eos_token_id) →
        res.input_ids = hfInputIds witTok 8 "ab" ∧
        res.attention_mask =
          List.replicate (hfInputIds witTok 8 "ab").length 1) :=
  ⟨by decide, tokenize_truncation_eos_spec witTok 8 "ab" true (by decide)⟩

/-- Reduction of `generate_and_tokenize_prompt` in the `train_on_inputs =
false` branch once both tokenizations are known to succeed. -/
theorem gen_eq_of_not_toi (tk : TokenizerCfg) (cutoff_len : Nat) (aet : Bool)
    (dp : DataPoint) (tfp tup : TokenizedResult)
    (hf : tokenize tk cutoff_len (fullPromptOf dp) true = some tfp)
    (hu : tokenize tk cutoff_len (userPromptOf dp) aet = some tup) :
    generate_and_tokenize_prompt tk cutoff_len false aet dp =
      some { tfp with
             labels := List.replicate
                 (if aet then tup.input_ids.length - 1
                  else tup.input_ids.length) (-100) ++
               tfp.labels.drop
                 (if aet then tup.input_ids.length - 1
                  else tup.input_ids.length) } := by
  unfold generate_and_tokenize_prompt
  rw [hf, hu]
  simp

/-- Claim C1: with `train_on_inputs = false`, the labels begin with
`user_prompt_len` copies of the sentinel `-100` — where `user_prompt_len`
is the tokenized length of the prompt without the response text,
decremented by one when `add_eos_token` is true — and every later
position carries the corresponding token id of the tokenized full
prompt. -/
theorem labels_masked_when_not_train_on_inputs (tk : TokenizerCfg)
    (cutoff_len : Nat) (aet : Bool) (dp : DataPoint)
    (hfull : hfInputIds tk cutoff_len (fullPromptOf dp) ≠ [])
    (huser : hfInputIds tk cutoff_len (userPromptOf dp) ≠ []) :
    ∃ res tfp upl,
      generate_and_tokenize_prompt tk cutoff_len false aet dp = some res ∧
      tokenize tk cutoff_len (fullPromptOf dp) true = some tfp ∧
      userPromptLen tk cutoff_len aet dp = some upl ∧
      res.input_ids = tfp.input_ids ∧
      (∀ i, i < upl → res.labels[i]? = some (-100)) ∧
      (∀ i, upl ≤ i → res.labels[i]? = tfp.input_ids[i]?) := by
  obtain ⟨tfp, hf, hflab, -, -⟩ := tokenize_spec tk cutoff_len (fullPromptOf dp) true hfull
  obtain ⟨tup, hu, -, -, -⟩ := tokenize_spec tk cutoff_len (userPromptOf dp) aet huser
  refine ⟨_, tfp, if aet then tup.input_ids.length - 1 else tup.input_ids.length,
    gen_eq_of_not_toi tk cutoff_len aet dp tfp tup hf hu, hf, ?_, rfl, ?_, ?_⟩
  · unfold userPromptLen
    rw [hu]
    rfl
  · intro i hi
    rw [List.getElem?_append_left (by simpa using hi), List.getElem?_replicate,
      if_pos hi]
  · intro i hi
    rw [List.getElem?_append_right (by simpa using hi)]
    simp only [List.length_replicate]
    rw [List.getElem?_drop]
    rw [show (if aet then tup.input_ids.length - 1 else tup.input_ids.length) +
        (i - (if aet then tup.input_ids.length - 1 else tup.input_ids.length)) = i
      by omega]
    rw [hflab]

/-- Closed instance of Claim C1 at `witTok`, `cutoff_len = 20`,
`add_eos_token = true` and the record `witDp`. -/
theorem labels_masked_when_not_train_on_inputs_witness :
    hfInputIds witTok 20 (fullPromptOf witDp) ≠ [] ∧
    hfInputIds witTok 20 (userPromptOf witDp) ≠ [] ∧
    (∃ res tfp upl,
      generate_and_tokenize_prompt witTok 20 false true witDp = some res ∧
      tokenize witTok 20 (fullPromptOf witDp) true = some tfp ∧
      userPromptLen witTok 20 true witDp = some upl ∧
      res.input_ids = tfp.input_ids ∧
      (∀ i, i < upl → res.labels[i]? = some (-100)) ∧
      (∀ i, upl ≤ i → res.labels[i]? = tfp.input_ids[i]?)) :=
  ⟨by decide, by decide,
    labels_masked_when_not_train_on_inputs witTok 20 true witDp
      (by decide) (by decide)⟩

/-- Claim C2: for either value of `train_on_inputs` and of
`add_eos_token`, the labels list `generate_and_tokenize_prompt` returns
has exactly the length of its `input_ids` list.  The hypothesis `hmono`
states that the tokenizer does not produce a longer (truncated) id
sequence for the user prompt than for the full prompt that extends it,
which every practical tokenizer satisfies for these strings. -/
theorem labels_length_eq_input_ids_length (tk : TokenizerCfg)
    (cutoff_len : Nat) (toi aet : Bool) (dp : DataPoint)
    (hfull : hfInputIds tk cutoff_len (fullPromptOf dp) ≠ [])
    (huser : hfInputIds tk cutoff_len (userPromptOf dp) ≠ [])
    (hmono : (hfInputIds tk cutoff_len (userPromptOf dp)).length ≤
      (hfInputIds tk cutoff_len (fullPromptOf dp)).length) :
    ∃ res, generate_and_tokenize_prompt tk cutoff_len toi aet dp = some res ∧
      res.labels.length = res.input_ids.length := by
  obtain ⟨tfp, hf, hflab, -, hifF⟩ :=
    tokenize_spec tk cutoff_len (fullPromptOf dp) true hfull
  have hFlen : (hfInputIds tk cutoff_len (fullPromptOf dp)).length ≤
      tfp.input_ids.length := by
    by_cases hc : (hfInputIds tk cutoff_len (fullPromptOf dp)).getLast? ≠
        some tk.eos_token_id ∧
        (hfInputIds tk cutoff_len (fullPromptOf dp)).length < cutoff_len ∧
        true = true
    · rw [if_pos hc] at hifF
      rw [hifF.1]
      simp
    · rw [if_neg hc] at hifF
      rw [hifF.1]
  cases toi with
  | true =>
    refine ⟨tfp, ?_, ?_⟩
    · unfold generate_and_tokenize_prompt
      rw [hf]
      simp
    · rw [hflab]
  | false =>
    obtain ⟨tup, hu, -, -, hifU⟩ :=
      tokenize_spec tk cutoff_len (userPromptOf dp) aet huser
    have hUlen : tup.input_ids.length ≤
        (hfInputIds tk cutoff_len (userPromptOf dp)).length + 1 := by
      by_cases hc : (hfInputIds tk cutoff_len (userPromptOf dp)).getLast? ≠
          some tk.eos_token_id ∧
          (hfInputIds tk cutoff_len (userPromptOf dp)).length < cutoff_len ∧
          aet = true
      · rw [if_pos hc] at hifU
        rw [hifU.1]
        simp
      · rw [if_neg hc] at hifU
        rw [hifU.1]
        omega
    have hUeq : aet = false →
        tup.input_ids.length =
          (hfInputIds tk cutoff_len (userPromptOf dp)).length := by
      intro ha
      have hc : ¬ ((hfInputIds tk cutoff_len (userPromptOf dp)).getLast? ≠
          some tk.eos_token_id ∧
          (hfInputIds tk cutoff_len (userPromptOf dp)).length < cutoff_len ∧
          aet = true) := by
        simp [ha]
      rw [if_neg hc] at hifU
      rw [hifU.1]
    have hupl : (if aet then tup.input_ids.length - 1
        else tup.input_ids.length) ≤ tfp.input_ids.length := by
      cases aet with
      | false =>
        simp only [if_neg Bool.false_ne_true]
        rw [hUeq rfl]
        omega
      | true =>
        simp only [if_pos rfl, ite_true, if_true]
        omega
    refine ⟨_, gen_eq_of_not_toi tk cutoff_len aet dp tfp tup hf hu, ?_⟩
    show (List.replicate (if aet then tup.input_ids.length - 1
        else tup.input_ids.length) (-100) ++
      tfp.labels.drop (if aet then tup.input_ids.length - 1
        else tup.input_ids.length)).length = tfp.input_ids.length
    rw [List.length_append, List.length_replicate, List.length_drop, hflab]
    omega

/-- Closed instance of Claim C2 at `witTok`, `cutoff_len = 20`,
`train_on_inputs = false`, `add_eos_token = false` and the record
`witDp`. -/
theorem labels_length_eq_input_ids_length_witness :
    hfInputIds witTok 20 (fullPromptOf witDp) ≠ [] ∧
    hfInputIds witTok 20 (userPromptOf witDp) ≠ [] ∧
    (hfInputIds witTok 20 (userPromptOf witDp)).length ≤
      (hfInputIds witTok 20 (fullPromptOf witDp)).length ∧
    (∃ res, generate_and_tokenize_prompt witTok 20 false false witDp = some res ∧
      res.labels.length = res.input_ids.length) :=
  ⟨by decide, by decide, by decide,
    labels_length_eq_input_ids_length witTok 20 false false witDp
      (by decide) (by decide) (by decide)⟩

/-- Claim C3: with `train_on_inputs = true`,
`generate_and_tokenize_prompt` returns exactly the result of `tokenize`
on the full prompt, whose labels field is the copy of `input_ids`, so no
position is replaced by the ignore sentinel. -/
theorem labels_eq_input_ids_when_train_on_inputs (tk : TokenizerCfg)
    (cutoff_len : Nat) (aet : Bool) (dp : DataPoint)
    (hfull : hfInputIds tk cutoff_len (fullPromptOf dp) ≠ []) :
    ∃ res, generate_and_tokenize_prompt tk cutoff_len true aet dp = some res ∧
      tokenize tk cutoff_len (fullPromptOf dp) true = some res ∧
      res.labels = res.input_ids := by
  obtain ⟨tfp, hf, hflab, -, -⟩ :=
    tokenize_spec tk cutoff_len (fullPromptOf dp) true hfull
  refine ⟨tfp, ?_, hf, hflab⟩
  unfold generate_and_tokenize_prompt
  rw [hf]
  simp

/-- Closed instance of Claim C3 at `witTok`, `cutoff_len = 20`,
`add_eos_token = true` and the record `witDp`. -/
theorem labels_eq_input_ids_when_train_on_inputs_witness :
    hfInputIds witTok 20 (fullPromptOf witDp) ≠ [] ∧
    (∃ res, generate_and_tokenize_prompt witTok 20 true true witDp = some res ∧
      tokenize witTok 20 (fullPromptOf witDp) true = some res ∧
      res.labels = res.input_ids) :=
  ⟨by decide,
    labels_eq_input_ids_when_train_on_inputs witTok 20 true witDp (by decide)⟩

/-- Claim C4: the training dataset is the image of the single function
`generate_and_tokenize_prompt` over every example of the shuffled loaded
dataset, and every produced example's `input_ids` and `attention_mask`
come from tokenizing the fixed Alpaca template with the example's
instruction, input and output fields substituted. -/
theorem train_data_maps_template_tokenization (tk : TokenizerCfg)
    (cutoff_len : Nat) (toi aet : Bool) (data shuffled : List DataPoint)
    (hperm : shuffled.Perm data) :
    (buildTrainData tk cutoff_len toi aet shuffled).Perm
      (data.map (generate_and_tokenize_prompt tk cutoff_len toi aet)) ∧
    (∀ i : Nat, (buildTrainData tk cutoff_len toi aet shuffled)[i]? =
      (shuffled[i]?).map (generate_and_tokenize_prompt tk cutoff_len toi aet)) ∧
    (∀ dp res, generate_and_tokenize_prompt tk cutoff_len toi aet dp = some res →
      ∃ tfp, tokenize tk cutoff_len
          ("Below is an instruction that describes a task, paired with an input that provides further context. Write a response that appropriately completes the request." ++
            "\n\n### Instruction:\n" ++ dp.instruction ++ "\n\n### Input:\n" ++
            dp.input ++ "\n\n### Response:\n" ++ dp.output) true = some tfp ∧
        res.input_ids = tfp.input_ids ∧
        res.attention_mask = tfp.attention_mask) := by
  refine ⟨hperm.map _, ?_, ?_⟩
  · intro i
    unfold buildTrainData
    exact List.getElem?_map _ _ _
  · intro dp res h
    unfold generate_and_tokenize_prompt at h
    cases hft : tokenize tk cutoff_len (fullPromptOf dp) true with
    | none =>
      rw [hft] at h
      exact absurd h (by simp)
    | some tfp =>
      rw [hft] at h
      refine ⟨tfp, hft, ?_⟩
      cases toi with
      | true =>
        simp only [ite_true, if_true, if_pos rfl] at h
        cases h
        exact ⟨rfl, rfl⟩
      | false =>
        simp only [Bool.false_eq_true, ite_false, if_false, if_neg] at h
        cases hu : tokenize tk cutoff_len (userPromptOf dp) aet with
        | none =>
          rw [hu] at h
          exact absurd h (by simp)
        | some tup =>
          rw [hu] at h
          cases h
          exact ⟨rfl, rfl⟩

/-- Closed instance of Claim C4 at `witTok`, `cutoff_len = 20`, both
flags false, and the one-element dataset `[witDp]` with the identity
shuffle. -/
theorem train_data_maps_template_tokenization_witness :
    ([witDp] : List DataPoint).Perm [witDp] ∧
    ((buildTrainData witTok 20 false false [witDp]).Perm
      ([witDp].map (generate_and_tokenize_prompt witTok 20 false false)) ∧
    (∀ i : Nat, (buildTrainData witTok 20 false false [witDp])[i]? =
      (([witDp] : List DataPoint)[i]?).map
        (generate_and_tokenize_prompt witTok 20 false false)) ∧
    (∀ dp res,
      generate_and_tokenize_prompt witTok 20 false false dp = some res →
      ∃ tfp, tokenize witTok 20
          ("Below is an instruction that describes a task, paired with an input that provides further context. Write a response that appropriately completes the request." ++
            "\n\n### Instruction:\n" ++ dp.instruction ++ "\n\n### Input:\n" ++
            dp.input ++ "\n\n### Response:\n" ++ dp.output) true = some tfp ∧
        res.input_ids = tfp.input_ids ∧
        res.attention_mask = tfp.attention_mask)) :=
  ⟨List.Perm.refl _,
    train_data_maps_template_tokenization witTok 20 false false [witDp] [witDp]
      (List.Perm.refl _)⟩

/-- The `if resume_from_checkpoint:` block emits no event, one
weight-loading event, or one missing-checkpoint message. -/
theorem resumeEvents_cases (r : ResumeArg) (fs : String → Bool) :
    resumeEvents r fs = [] ∨
    resumeEvents r fs = [TrainEvent.loadCheckpointWeights] ∨
    resumeEvents r fs = [TrainEvent.printCheckpointMissing] := by
  unfold resumeEvents
  cases r with
  | pynone => left; rfl
  | boolean b => cases b <;> left <;> rfl
  | str s =>
    by_cases he : (ResumeArg.str s).truthy = true
    · rw [if_pos he]
      simp only []
      by_cases h1 : fs (s ++ "/pytorch_model.bin") = true
      · rw [if_pos h1]
        right; left; rfl
      · rw [if_neg h1]
        by_cases h2 : fs (s ++ "/adapter_model.bin") = true
        · rw [if_pos h2]
          right; left; rfl
        · rw [if_neg h2]
          right; right; rfl
    · rw [if_neg he]
      left; rfl

/-- Claim C6: a run of `train` that reaches training executes the
stages in the fixed order — argument printing, base-model load,
tokenizer load, int8 preparation, adapter attachment, dataset load,
per-example tokenization/masking, the delegated training loop, adapter
save, tokenizer save — each exactly once, with none skipped or
reordered. -/
theorem train_stage_order (c : TrainConfig) (fs : String → Bool)
    (hb : ¬ c.base_model = "")
    (hg : computeGradAccum c.batch_size c.micro_batch_size c.world_size ≠ none)
    (hr : c.local_rank = 0) :
    ∃ evs, trainTrace c fs = some evs ∧
      List.Sublist
        [TrainEvent.printArgs, TrainEvent.loadBaseModel,
         TrainEvent.loadTokenizer, TrainEvent.prepareInt8,
         TrainEvent.attachLora, TrainEvent.loadDataset,
         TrainEvent.mapTokenizeDataset, TrainEvent.trainerTrain,
         TrainEvent.saveAdapter, TrainEvent.saveTokenizer] evs ∧
      ∀ e ∈ [TrainEvent.printArgs, TrainEvent.loadBaseModel,
         TrainEvent.loadTokenizer, TrainEvent.prepareInt8,
         TrainEvent.attachLora, TrainEvent.loadDataset,
         TrainEvent.mapTokenizeDataset, TrainEvent.trainerTrain,
         TrainEvent.saveAdapter, TrainEvent.saveTokenizer],
        evs.count e = 1 := by
  obtain ⟨gas, hgas⟩ :=
    Option.ne_none_iff_exists'.mp hg
  have htr : trainTrace c fs =
      some ([TrainEvent.printArgs] ++
        [TrainEvent.loadBaseModel, TrainEvent.loadTokenizer,
         TrainEvent.prepareInt8, TrainEvent.attachLora,
         TrainEvent.loadDataset] ++
        resumeEvents (resumeArgOfOpt c.resume_from_checkpoint) fs ++
        [TrainEvent.mapTokenizeDataset, TrainEvent.trainerTrain,
         TrainEvent.saveAdapter, TrainEvent.saveTokenizer]) := by
    unfold trainTrace
    rw [if_neg hb, hgas, if_pos hr]
  rcases resumeEvents_cases (resumeArgOfOpt c.resume_from_checkpoint) fs with
    hR | hR | hR <;>
    rw [hR] at htr <;>
    exact ⟨_, htr, by decide, by decide⟩

/-- Closed instance of Claim C6 at the concrete configuration `witCfg`
and the empty filesystem `witFs`. -/
theorem train_stage_order_witness :
    ¬ witCfg.base_model = "" ∧
    computeGradAccum witCfg.batch_size witCfg.micro_batch_size
      witCfg.world_size ≠ none ∧
    witCfg.local_rank = 0 ∧
    (∃ evs, trainTrace witCfg witFs = some evs ∧
      List.Sublist
        [TrainEvent.printArgs, TrainEvent.loadBaseModel,
         TrainEvent.loadTokenizer, TrainEvent.prepareInt8,
         TrainEvent.attachLora, TrainEvent.loadDataset,
         TrainEvent.mapTokenizeDataset, TrainEvent.trainerTrain,
         TrainEvent.saveAdapter, TrainEvent.saveTokenizer] evs ∧
      ∀ e ∈ [TrainEvent.printArgs, TrainEvent.loadBaseModel,
         TrainEvent.loadTokenizer, TrainEvent.prepareInt8,
         TrainEvent.attachLora, TrainEvent.loadDataset,
         TrainEvent.mapTokenizeDataset, TrainEvent.trainerTrain,
         TrainEvent.saveAdapter, TrainEvent.saveTokenizer],
        evs.count e = 1) :=
  ⟨by decide, by decide, rfl,
    train_stage_order witCfg witFs (by decide) (by decide) rfl⟩

/-- Claim C7: the base model is loaded with `load_in_8bit=True` and
`torch_dtype=float16`, passed through `prepare_model_for_int8_training`
while no adapter is yet attached, and only then wrapped by
`get_peft_model` with the `LoraConfig` built from the hyperparameters
with `bias="none"` and `task_type="CAUSAL_LM"`. -/
theorem model_int8_lora_pipeline (c : TrainConfig) :
    modelPipeline c =
      get_peft_model (prepare_model_for_int8_training (fromPretrainedModel c))
        (loraConfigOf c) ∧
    (modelPipeline c).load_in_8bit = true ∧
    (modelPipeline c).torch_dtype = "float16" ∧
    (modelPipeline c).int8Prepared = true ∧
    (modelPipeline c).adapter = some
      { r := c.lora_r, lora_alpha := c.lora_alpha,
        target_modules := c.lora_target_modules,
        lora_dropout := c.lora_dropout, bias := "none",
        task_type := "CAUSAL_LM" } ∧
    (prepare_model_for_int8_training (fromPretrainedModel c)).adapter =
      none :=
  ⟨rfl, rfl, rfl, rfl, rfl, rfl⟩

/-- Claim C8: the `TrainingArguments` passed to `transformers.Trainer`
carry exactly the parsed hyperparameters, `fp16` is true, and
evaluation (strategy, eval steps, best-model loading) is enabled if and
only if `val_set_size > 0`. -/
theorem trainer_args_from_hyperparams (c : TrainConfig) (gas : Int)
    (_h : computeGradAccum c.batch_size c.micro_batch_size c.world_size =
      some gas) :
    (mkTrainingArguments c gas).per_device_train_batch_size =
      c.micro_batch_size ∧
    (mkTrainingArguments c gas).gradient_accumulation_steps = gas ∧
    (mkTrainingArguments c gas).warmup_steps = c.warmup_steps ∧
    (mkTrainingArguments c gas).num_train_epochs = c.num_epochs ∧
    (mkTrainingArguments c gas).learning_rate = c.learning_rate ∧
    (mkTrainingArguments c gas).lr_scheduler_type = c.lr_scheduler ∧
    (mkTrainingArguments c gas).fp16 = true ∧
    ((mkTrainingArguments c gas).evaluation_strategy = "steps" ↔
      0 < c.val_set_size) ∧
    ((mkTrainingArguments c gas).eval_steps = some 200 ↔
      0 < c.val_set_size) ∧
    ((mkTrainingArguments c gas).load_best_model_at_end = true ↔
      0 < c.val_set_size) := by
  refine ⟨rfl, rfl, rfl, rfl, rfl, rfl, rfl, ?_, ?_, ?_⟩ <;>
    by_cases hv : 0 < c.val_set_size <;>
    simp [mkTrainingArguments, hv]

/-- Closed instance of Claim C8 at `witCfg` and its computed
accumulation value 16. -/
theorem trainer_args_from_hyperparams_witness :
    computeGradAccum witCfg.batch_size witCfg.micro_batch_size
      witCfg.world_size = some 16 ∧
    ((mkTrainingArguments witCfg 16).per_device_train_batch_size =
      witCfg.micro_batch_size ∧
    (mkTrainingArguments witCfg 16).gradient_accumulation_steps = 16 ∧
    (mkTrainingArguments witCfg 16).warmup_steps = witCfg.warmup_steps ∧
    (mkTrainingArguments witCfg 16).num_train_epochs = witCfg.num_epochs ∧
    (mkTrainingArguments witCfg 16).learning_rate = witCfg.learning_rate ∧
    (mkTrainingArguments witCfg 16).lr_scheduler_type = witCfg.lr_scheduler ∧
    (mkTrainingArguments witCfg 16).fp16 = true ∧
    ((mkTrainingArguments witCfg 16).evaluation_strategy = "steps" ↔
      0 < witCfg.val_set_size) ∧
    ((mkTrainingArguments witCfg 16).eval_steps = some 200 ↔
      0 < witCfg.val_set_size) ∧
    ((mkTrainingArguments witCfg 16).load_best_model_at_end = true ↔
      0 < witCfg.val_set_size)) :=
  ⟨by decide, trainer_args_from_hyperparams witCfg 16 (by decide)⟩

/-- Claim C9: `gradient_accumulation_steps` is the floor of
`batch_size / micro_batch_size`, further floor-divided by `WORLD_SIZE`
when that is greater than 1; `micro_batch_size = 0` raises an unguarded
`ZeroDivisionError` (`none`), and a nonnegative `batch_size` below
`micro_batch_size` yields 0 accumulation steps. -/
theorem gradient_accumulation_steps_spec (b m w : Int) :
    (m = 0 → computeGradAccum b m w = none) ∧
    (m ≠ 0 → w = 1 → computeGradAccum b m w = some (Int.fdiv b m)) ∧
    (m ≠ 0 → 1 < w →
      computeGradAccum b m w = some (Int.fdiv (Int.fdiv b m) w)) ∧
    (m ≠ 0 → w = 1 → 0 ≤ b → b < m → computeGradAccum b m w = some 0) := by
  refine ⟨?_, ?_, ?_, ?_⟩
  · intro hm
    unfold computeGradAccum
    rw [if_pos hm]
  · intro hm hw
    unfold computeGradAccum
    rw [if_neg hm]
    simp [hw]
  · intro hm hw
    unfold computeGradAccum
    rw [if_neg hm]
    simp only []
    rw [if_pos (by omega : w ≠ 1), if_neg (by omega : ¬ w = 0)]
  · intro hm hw hb hbm
    have h0 : Int.fdiv b m = 0 := by
      rw [Int.fdiv_eq_ediv _ (le_of_lt (lt_of_le_of_lt hb hbm))]
      exact Int.ediv_eq_zero_of_lt hb hbm
    unfold computeGradAccum
    rw [if_neg hm]
    simp [hw, h0]

/-- Closed instances of Claim C9: the default 128/8 single-process case,
the two-process case, the zero micro-batch failure, and a batch size
below the micro-batch size. -/
theorem gradient_accumulation_steps_spec_witness :
    computeGradAccum 128 0 1 = none ∧
    computeGradAccum 128 8 1 = some (Int.fdiv 128 8) ∧
    computeGradAccum 128 8 2 = some (Int.fdiv (Int.fdiv 128 8) 2) ∧
    computeGradAccum 7 8 1 = some 0 :=
  ⟨(gradient_accumulation_steps_spec 128 0 1).1 rfl,
    (gradient_accumulation_steps_spec 128 8 1).2.1 (by decide) rfl,
    (gradient_accumulation_steps_spec 128 8 2).2.2.1 (by decide) (by decide),
    (gradient_accumulation_steps_spec 7 8 1).2.2.2 (by decide) rfl
      (by decide) (by decide)⟩

/-- Claim C10: when `resume_from_checkpoint` names a directory with no
`pytorch_model.bin`, the block falls back to `adapter_model.bin` there
and resets the variable to `False` (so the trainer does not resume its
state); the adapter weights are loaded exactly when the fallback file
exists, and when it does not, only the "not found" message is printed
and the step completes without error. -/
theorem resume_checkpoint_fallback (s : String) (fs : String → Bool)
    (hs : ¬ s = "") (hmiss : fs (s ++ "/pytorch_model.bin") = false) :
    (resumeFromCheckpointStep (ResumeArg.str s) fs).resume_out =
      ResumeArg.boolean false ∧
    (resumeFromCheckpointStep (ResumeArg.str s) fs).checkpoint_name =
      some (s ++ "/adapter_model.bin") ∧
    (resumeFromCheckpointStep (ResumeArg.str s) fs).weights_loaded =
      fs (s ++ "/adapter_model.bin") ∧
    (fs (s ++ "/adapter_model.bin") = false →
      (resumeFromCheckpointStep (ResumeArg.str s) fs).printed_not_found =
        true ∧
      (resumeFromCheckpointStep (ResumeArg.str s) fs).weights_loaded =
        false) := by
  have he : (ResumeArg.str s).truthy = true := by
    simp [ResumeArg.truthy, hs]
  unfold resumeFromCheckpointStep
  rw [if_pos he]
  simp only []
  rw [if_neg (by simp [hmiss] : ¬ fs (s ++ "/pytorch_model.bin") = true)]
  by_cases h2 : fs (s ++ "/adapter_model.bin") = true
  · rw [if_pos h2]
    exact ⟨rfl, rfl, h2.symm, fun hcon => absurd h2 (by simp [hcon])⟩
  · rw [if_neg h2]
    refine ⟨rfl, rfl, ?_, fun _ => ⟨rfl, rfl⟩⟩
    simp at h2
    exact h2.symm

/-- Closed instance of Claim C10 on a filesystem on which neither
checkpoint file exists. -/
theorem resume_checkpoint_fallback_witness :
    ¬ ("ckpt" : String) = "" ∧
    witFs ("ckpt" ++ "/pytorch_model.bin") = false ∧
    ((resumeFromCheckpointStep (ResumeArg.str "ckpt") witFs).resume_out =
      ResumeArg.boolean false ∧
    (resumeFromCheckpointStep (ResumeArg.str "ckpt") witFs).checkpoint_name =
      some ("ckpt" ++ "/adapter_model.bin") ∧
    (resumeFromCheckpointStep (ResumeArg.str "ckpt") witFs).weights_loaded =
      witFs ("ckpt" ++ "/adapter_model.bin") ∧
    (witFs ("ckpt" ++ "/adapter_model.bin") = false →
      (resumeFromCheckpointStep
        (ResumeArg.str "ckpt") witFs).printed_not_found = true ∧
      (resumeFromCheckpointStep
        (ResumeArg.str "ckpt") witFs).weights_loaded = false)) :=
  ⟨by decide, rfl,
    resume_checkpoint_fallback "ckpt" witFs (by decide) rfl⟩

end SftAlpaca
